import Mathlib

/-!
Verification of the gosnowapi client against its specification.

The development shallowly embeds the two components of the repository:

* `Snowapi` — the statement-execution client (`Execute`, `Poll`,
  `WaitUntilComplete` from `snowapi/client.go`, data model from
  `snowapi/types.go`).  The HTTP transport is modelled as an explicit
  probe behaviour `Nat → PollOutcome` (the outcome of the i-th probe),
  and `WaitUntilComplete` is instrumented to also record how many probes
  were issued and which sleep durations occurred, so that the
  attempt-counting properties of the spec can be stated.

* `Auth` — the JWT issuance subsystem (`internal/auth/keypair.go`).
  SHA-256 and standard base64 are implemented concretely; the Go
  standard-library boundaries `pem.Decode`, `x509.ParsePKCS8PrivateKey`
  and the RS256 signing step of the jwt library are, like the HTTP
  transport, explicit parameters (`CryptoLib`), since they are external
  collaborators of the repository code.  A compact JWT is modelled as
  its decoded claims together with its signature.
-/

namespace Snowapi

/-- A dynamically-typed JSON cell value, modelling the `interface{}`
cells of `QueryResponse.Data` (numbers modelled as integers). -/
inductive JsonVal where
  | null
  | bool (b : Bool)
  | num (n : Int)
  | str (s : String)
  | arr (elems : List JsonVal)
  | obj (fields : List (String × JsonVal))

/-- `ResultSetMetaConfig` from `snowapi/types.go`. -/
structure ResultSetMetaConfig where
  format : String
deriving DecidableEq

/-- `ColumnMeta` from `snowapi/types.go`. -/
structure ColumnMeta where
  name : String
  database : String
  schema : String
  table : String
  nullable : Bool
  scale : Option Int
  byteLength : Option Int
  length : Option Int
  type : String
  precision : Option Int
  collation : Option String
deriving DecidableEq

/-- `PartitionMeta` from `snowapi/types.go`. -/
structure PartitionMeta where
  rowCount : Int
  uncompressedSize : Int
  compressedSize : Option Int
deriving DecidableEq

/-- `ResultSetMetaData` from `snowapi/types.go`. -/
structure ResultSetMetaData where
  numRows : Int
  format : String
  rowType : List ColumnMeta
  partitionInfo : List PartitionMeta
deriving DecidableEq

/-- `QueryResponse` from `snowapi/types.go`. -/
structure QueryResponse where
  resultSetMetaData : ResultSetMetaData
  data : List (List JsonVal)
  code : String
  statementStatusURL : String
  statementHandle : String
  sqlState : String
  message : String
  createdOn : Int

/-- `QueryErrorResponse` from `snowapi/types.go`. -/
structure QueryErrorResponse where
  code : String
  message : String
  sqlState : String
  statementHandle : String
deriving DecidableEq

/-- `QueryRequest` from `snowapi/types.go` (the outbound JSON body). -/
structure QueryRequest where
  statement : String
  timeout : Int
  resultSetMetaData : Option ResultSetMetaConfig
deriving DecidableEq

/-- `RequestOptions` as used by `Execute` in `snowapi/client.go`
(field `RequestID string`, field `Retry *bool`). -/
structure RequestOptions where
  requestID : String
  retry : Option Bool
deriving DecidableEq

/-! ## The wait loop (`WaitUntilComplete`, `snowapi/client.go` lines 234-254)

`Poll` returns `(*QueryResponse, int, error)`.  A probe behaviour assigns
to every probe index the outcome of that call: either a non-nil `error`
(`transportErr`), or a decoded body together with the HTTP status code
(`reply`). -/

/-- Outcome of one `Poll` call as observed by `WaitUntilComplete`. -/
inductive PollOutcome where
  | transportErr (e : String)
  | reply (resp : QueryResponse) (status : Nat)

/-- Result of a `WaitUntilComplete` run, instrumented with the number of
probes issued and the list of sleep durations performed (in order). -/
structure WaitTrace where
  result : Except String QueryResponse
  probes : Nat
  sleeps : List Int

/-- The loop body of `WaitUntilComplete`: `i` is the index of the next
probe, the last argument the remaining attempt budget (`maxRetries - i`).
Mirrors the `switch` in `snowapi/client.go` lines 235-251: status 200
returns the response, 202 sleeps `interval` and loops, 422 returns the
execution-failed error, anything else the unexpected-status error; a
non-nil error from `Poll` is returned as-is.  Running out of budget
returns the max-retries error of line 253. -/
def waitGo (poll : Nat → PollOutcome) (interval : Int) (i : Nat) :
    Nat → WaitTrace
  | 0 => ⟨.error "max retries exceeded while waiting for completion", 0, []⟩
  | fuel + 1 =>
    match poll i with
    | .transportErr e => ⟨.error e, 1, []⟩
    | .reply resp status =>
      if status = 200 then
        ⟨.ok resp, 1, []⟩
      else if status = 202 then
        let t := waitGo poll interval (i + 1) fuel
        ⟨t.result, t.probes + 1, interval :: t.sleeps⟩
      else if status = 422 then
        ⟨.error ("query execution failed: " ++ resp.message ++ " (code "
          ++ resp.code ++ ")"), 1, []⟩
      else
        ⟨.error ("unexpected status " ++ toString status ++ ": "
          ++ resp.message), 1, []⟩

/-- `WaitUntilComplete(handle, interval, maxRetries)` over a probe
behaviour: probes are numbered from 0 and the loop runs at most
`maxRetries` of them. -/
def waitUntilComplete (poll : Nat → PollOutcome) (interval : Int)
    (maxRetries : Nat) : WaitTrace :=
  waitGo poll interval 0 maxRetries

/-! ## `Execute` (`snowapi/client.go` lines 79-150) -/

/-- The outbound request built by `Execute`: method, base URL, the query
parameters in the order they are set, and the JSON body (kept as the
`QueryRequest` value it is marshalled from). -/
structure ExecuteRequest where
  method : String
  baseURL : String
  queryParams : List (String × String)
  body : QueryRequest
deriving DecidableEq

/-- The JSON body built by `Execute` (lines 81-87): the statement, a
timeout of 60, and result-set metadata format "json". -/
def executeBody (statement : String) : QueryRequest :=
  { statement := statement
    timeout := 60
    resultSetMetaData := some { format := "json" } }

/-- The query parameters set by `Execute` (lines 95-106): always `async`
and `nullable=true`; `requestId` when a non-empty `RequestID` is given,
and in that case `retry=true` unless `Retry` is explicitly false. -/
def executeQueryParams (async : Bool) (opts : Option RequestOptions) :
    List (String × String) :=
  let ps := [("async", if async then "true" else "false"), ("nullable", "true")]
  match opts with
  | none => ps
  | some o =>
    if o.requestID = "" then ps
    else
      let ps := ps ++ [("requestId", o.requestID)]
      match o.retry with
      | none => ps ++ [("retry", "true")]
      | some b => if b then ps ++ [("retry", "true")] else ps

/-- The POST request built by `Execute` (lines 79-114). -/
def executeRequest (baseURL statement : String) (async : Bool)
    (opts : Option RequestOptions) : ExecuteRequest :=
  { method := "POST"
    baseURL := baseURL
    queryParams := executeQueryParams async opts
    body := executeBody statement }

/-- Interpretation of a decoded `Execute` response (`snowapi/client.go`
lines 138-149): HTTP 202 or in-body code "333334" means async-in-progress
and the body is returned; any other non-200 status is an API error built
from the body's message and code; a 200 returns the body. -/
def interpretExecuteResponse (status : Nat) (result : QueryResponse) :
    Except String QueryResponse :=
  if status = 202 ∨ result.code = "333334" then
    .ok result
  else if status ≠ 200 then
    .error ("API error: " ++ result.message ++ " (code " ++ result.code ++ ")")
  else
    .ok result

/-! ## `Poll` (`snowapi/client.go` lines 154-175) -/

/-- An outbound HTTP request with an optional raw body (`none` models the
nil body of `http.NewRequest("GET", endpoint, nil)`). -/
structure HTTPRequest where
  method : String
  url : String
  body : Option String
deriving DecidableEq

/-- The GET request built by `Poll` (lines 154-175): endpoint
`baseURL/handle`, with `?partition=N` appended when `partition > 0`, and
no body. -/
def pollRequest (baseURL handle : String) (partition : Int) : HTTPRequest :=
  let endpoint := baseURL ++ "/" ++ handle
  let endpoint :=
    if partition > 0 then endpoint ++ "?partition=" ++ toString partition
    else endpoint
  { method := "GET", url := endpoint, body := none }

end Snowapi

namespace Auth

/-! ## SHA-256 (`crypto/sha256`, as used by `fingerprint`)

Bytes are naturals below 256, 32-bit words naturals below 2^32 with
wraparound made explicit by `w32`. -/

/-- Truncation to a 32-bit word. -/
def w32 (n : Nat) : Nat := n % 4294967296

/-- Right rotation of a 32-bit word by `n` bits. -/
def rotr32 (n x : Nat) : Nat := w32 ((x >>> n) ||| (x <<< (32 - n)))

/-- The Σ0 function of the SHA-256 compression. -/
def bigSigma0 (x : Nat) : Nat :=
  (rotr32 2 x) ^^^ (rotr32 13 x) ^^^ (rotr32 22 x)

/-- The Σ1 function of the SHA-256 compression. -/
def bigSigma1 (x : Nat) : Nat :=
  (rotr32 6 x) ^^^ (rotr32 11 x) ^^^ (rotr32 25 x)

/-- The σ0 function of the SHA-256 message schedule. -/
def smallSigma0 (x : Nat) : Nat :=
  (rotr32 7 x) ^^^ (rotr32 18 x) ^^^ (x >>> 3)

/-- The σ1 function of the SHA-256 message schedule. -/
def smallSigma1 (x : Nat) : Nat :=
  (rotr32 17 x) ^^^ (rotr32 19 x) ^^^ (x >>> 10)

/-- The Ch function: bitwise `(x AND y) XOR ((NOT x) AND z)`. -/
def ch (x y z : Nat) : Nat := (x &&& y) ^^^ ((x ^^^ 4294967295) &&& z)

/-- The Maj function: bitwise majority of three words. -/
def maj (x y z : Nat) : Nat := (x &&& y) ^^^ (x &&& z) ^^^ (y &&& z)

/-- The 64 SHA-256 round constants (fractional parts of the cube roots
of the first 64 primes), in decimal. -/
def sha256K : List Nat :=
  [1116352408, 1899447441, 3049323471, 3921009573, 961987163, 1508970993,
   2453635748, 2870763221, 3624381080, 310598401, 607225278, 1426881987,
   1925078388, 2162078206, 2614888103, 3248222580, 3835390401, 4022224774,
   264347078, 604807628, 770255983, 1249150122, 1555081692, 1996064986,
   2554220882, 2821834349, 2952996808, 3210313671, 3336571891, 3584528711,
   113926993, 338241895, 666307205, 773529912, 1294757372, 1396182291,
   1695183700, 1986661051, 2177026350, 2456956037, 2730485921, 2820302411,
   3259730800, 3345764771, 3516065817, 3600352804, 4094571909, 275423344,
   430227734, 506948616, 659060556, 883997877, 958139571, 1322822218,
   1537002063, 1747873779, 1955562222, 2024104815, 2227730452, 2361852424,
   2428436474, 2756734187, 3204031479, 3329325298]

/-- The SHA-256 initial hash state (fractional parts of the square roots
of the first 8 primes), in decimal. -/
def sha256H0 : List Nat :=
  [1779033703, 3144134277, 1013904242, 2773480762,
   1359893119, 2600822924, 528734635, 1541459225]

/-- Big-endian 8-byte encoding of a 64-bit length. -/
def beBytes8 (n : Nat) : List Nat :=
  [(n >>> 56) % 256, (n >>> 48) % 256, (n >>> 40) % 256, (n >>> 32) % 256,
   (n >>> 24) % 256, (n >>> 16) % 256, (n >>> 8) % 256, n % 256]

/-- Big-endian 4-byte encoding of a 32-bit word. -/
def beBytes4 (n : Nat) : List Nat :=
  [(n >>> 24) % 256, (n >>> 16) % 256, (n >>> 8) % 256, n % 256]

/-- SHA-256 padding: a 0x80 byte, zeros up to 56 mod 64, and the
big-endian 64-bit bit length. -/
def sha256Pad (msg : List Nat) : List Nat :=
  let len := msg.length
  let zeros := (64 - ((len + 9) % 64)) % 64
  msg ++ [128] ++ List.replicate zeros 0 ++ beBytes8 (len * 8)

/-- Groups of four big-endian bytes into 32-bit words. -/
def bytesToWords : List Nat → List Nat
  | a :: b :: c :: d :: rest =>
    (((a * 256 + b) * 256 + c) * 256 + d) :: bytesToWords rest
  | _ => []

/-- Message-schedule extension, keeping the words most-recent first. -/
def extendRev (ws : List Nat) : Nat → List Nat
  | 0 => ws
  | n + 1 =>
    let nw := w32 (smallSigma1 (ws.getD 1 0) + ws.getD 6 0
      + smallSigma0 (ws.getD 14 0) + ws.getD 15 0)
    extendRev (nw :: ws) n

/-- The 64-word message schedule of one 64-byte block. -/
def messageSchedule (block : List Nat) : List Nat :=
  (extendRev (bytesToWords block).reverse 48).reverse

/-- One SHA-256 compression round on the state `[a,b,c,d,e,f,g,h]` with
round constant `kw.1` and schedule word `kw.2`. -/
def compressRound (st : List Nat) (kw : Nat × Nat) : List Nat :=
  match st with
  | [a, b, c, d, e, f, g, h] =>
    let t1 := w32 (h + bigSigma1 e + ch e f g + kw.1 + kw.2)
    let t2 := w32 (bigSigma0 a + maj a b c)
    [w32 (t1 + t2), a, b, c, w32 (d + t1), e, f, g]
  | other => other

/-- Processing one 64-byte block: 64 compression rounds, then adding the
incoming state back in. -/
def processBlock (h : List Nat) (block : List Nat) : List Nat :=
  let st := (sha256K.zip (messageSchedule block)).foldl compressRound h
  (h.zip st).map fun p => w32 (p.1 + p.2)

/-- Processing the given number of leading 64-byte chunks. -/
def processChunks (h : List Nat) (bs : List Nat) : Nat → List Nat
  | 0 => h
  | n + 1 => processChunks (processBlock h (bs.take 64)) (bs.drop 64) n

/-- SHA-256 of a byte sequence (`sha256.Sum256`), as 32 bytes. -/
def sha256 (msg : List Nat) : List Nat :=
  let padded := sha256Pad msg
  ((processChunks sha256H0 padded (padded.length / 64)).map beBytes4).flatten

/-! ## Standard base64 (`encoding/base64.StdEncoding.EncodeToString`) -/

/-- The standard base64 alphabet. -/
def base64Chars : List Char :=
  "ABCDEFGHIJKLMNOPQRSTUVWXYZabcdefghijklmnopqrstuvwxyz0123456789+/".data

/-- The base64 character of a 6-bit value. -/
def b64c (n : Nat) : Char := base64Chars.getD n 'A'

/-- Standard base64 encoding with `=` padding. -/
def base64StdEncode : List Nat → String
  | [] => ""
  | [a] => ⟨[b64c (a >>> 2), b64c ((a % 4) <<< 4)]⟩ ++ "=="
  | [a, b] =>
    ⟨[b64c (a >>> 2), b64c (((a % 4) <<< 4) + (b >>> 4)),
      b64c ((b % 16) <<< 2)]⟩ ++ "="
  | a :: b :: c :: rest =>
    ⟨[b64c (a >>> 2), b64c (((a % 4) <<< 4) + (b >>> 4)),
      b64c (((b % 16) <<< 2) + (c >>> 6)), b64c (c % 64)]⟩
      ++ base64StdEncode rest

/-! ## The token issuer (`internal/auth/keypair.go`)

`pem.Decode`, `x509.ParsePKCS8PrivateKey` and the RS256 `SignedString`
step are Go standard-library / jwt-library collaborators; they appear as
the explicit parameter `CryptoLib`. -/

/-- A decoded PEM block (`pem.Block`): type line, headers and the raw
inner (DER) bytes. -/
structure PemBlock where
  type : String
  headers : List (String × String)
  bytes : List Nat

/-- An RSA private key (`rsa.PrivateKey`), reduced to its arithmetic
parameters; theorems never inspect these. -/
structure RSAPrivateKey where
  modulus : Nat
  publicExponent : Nat
  privateExponent : Nat
deriving DecidableEq

/-- Outcome of a successful `x509.ParsePKCS8PrivateKey`: an RSA key or a
key of some other supported type (ECDSA, Ed25519, ...). -/
inductive PKCS8Parsed where
  | rsa (k : RSAPrivateKey)
  | nonRSA
deriving DecidableEq

/-- The registered claims placed in the token (`jwt.RegisteredClaims`);
numeric dates are seconds. -/
structure JWTClaims where
  issuer : String
  subject : String
  audience : List String
  issuedAt : Int
  expiresAt : Int
deriving DecidableEq

/-- A signed compact JWT, modelled as its decoded claims together with
its signature. -/
structure SignedJWT where
  claims : JWTClaims
  signature : String
deriving DecidableEq

/-- The standard-library boundary used by `keypair.go`: the first PEM
block of a byte sequence (or `none`), the PKCS#8 parse of DER bytes, and
the RS256 signing operation over the claims. -/
structure CryptoLib where
  pemDecode : List Nat → Option PemBlock
  parsePKCS8 : List Nat → Except String PKCS8Parsed
  rs256Sign : RSAPrivateKey → JWTClaims → Except String String

/-- `TokenConfig` from `internal/auth/keypair.go`; key material as PEM
bytes, `expireAfter` in seconds. -/
structure TokenConfig where
  account : String
  user : String
  privateKey : List Nat
  publicKey : List Nat
  expireAfter : Int

/-- `strings.ToUpper`, character-wise on the string's characters. -/
def toUpperString (s : String) : String := ⟨s.data.map Char.toUpper⟩

/-- `normalizeAccount` (lines 87-89): uppercase after replacing every
`.` with `-` (`strings.ToUpper(strings.ReplaceAll(account, ".", "-"))`;
the pattern is a single character, so the replacement is
character-wise). -/
def normalizeAccount (account : String) : String :=
  toUpperString ⟨account.data.map (fun c => if c = '.' then '-' else c)⟩

/-- `parsePrivateKey` (lines 60-74): PEM-decode, PKCS#8-parse, and
require an RSA key. -/
def parsePrivateKey (lib : CryptoLib) (pemBytes : List Nat) :
    Except String RSAPrivateKey :=
  match lib.pemDecode pemBytes with
  | none => .error "invalid PEM format for private key"
  | some block =>
    match lib.parsePKCS8 block.bytes with
    | .error e => .error e
    | .ok (.rsa k) => .ok k
    | .ok .nonRSA => .error "not an RSA private key"

/-- `fingerprint` (lines 77-84): PEM-decode the public key material and
hash the block's inner bytes; no parsing of those bytes happens. -/
def fingerprint (lib : CryptoLib) (pubPEM : List Nat) :
    Except String String :=
  match lib.pemDecode pubPEM with
  | none => .error "invalid PEM for public key"
  | some block => .ok ("SHA256:" ++ base64StdEncode (sha256 block.bytes))

/-- The claims built by `GenerateJWT` (lines 37-49) from the normalized
account, uppercased user, fingerprint and clock. -/
def snowflakeClaims (cfg : TokenConfig) (now : Int) (fp : String) :
    JWTClaims :=
  let account := normalizeAccount cfg.account
  let user := toUpperString cfg.user
  { issuer := account ++ "." ++ user ++ "." ++ fp
    subject := account ++ "." ++ user
    audience := ["snowflake"]
    issuedAt := now
    expiresAt := now + cfg.expireAfter }

/-- `GenerateJWT` (lines 26-57): parse the private key, compute the
fingerprint (wrapping its error), build the claims, sign (wrapping a
signing error). `now` is the sampled wall clock. -/
def generateJWT (lib : CryptoLib) (now : Int) (cfg : TokenConfig) :
    Except String SignedJWT :=
  match parsePrivateKey lib cfg.privateKey with
  | .error e => .error e
  | .ok privKey =>
    match fingerprint lib cfg.publicKey with
    | .error e => .error ("fingerprint generation failed: " ++ e)
    | .ok fp =>
      let claims := snowflakeClaims cfg now fp
      match lib.rs256Sign privKey claims with
      | .error e => .error ("JWT signing failed: " ++ e)
      | .ok sig => .ok ⟨claims, sig⟩

end Auth

namespace Snowapi

/-- A minimal response body with the given code and message, used to
instantiate closed examples. -/
def sampleResp (code message : String) : QueryResponse :=
  { resultSetMetaData := { numRows := 0, format := "json", rowType := [], partitionInfo := [] }
    data := []
    code := code
    statementStatusURL := ""
    statementHandle := "h"
    sqlState := ""
    message := message
    createdOn := 0 }

/-- When every probe reports still-running (202), the loop spends its
whole budget: `fuel` probes, `fuel` sleeps, then the max-retries error. -/
theorem waitGo_all_accepted (poll : Nat → PollOutcome) (interval : Int)
    (h : ∀ j, ∃ r, poll j = .reply r 202) :
    ∀ fuel i, waitGo poll interval i fuel =
      ⟨.error "max retries exceeded while waiting for completion", fuel,
        List.replicate fuel interval⟩ := by
  intro fuel
  induction fuel with
  | zero => intro i; rfl
  | succ m ih =>
    intro i
    obtain ⟨r, hr⟩ := h i
    simp [waitGo, hr, ih (i + 1), List.replicate_succ]

/-- C1: for every `maxAttempts = n ≥ 1` and every poll behaviour that
reports still-running (HTTP 202) on every probe, `WaitUntilComplete`
performs exactly `n` probes (never `n + 1`) and returns the
max-retries-exceeded error with no result. -/
theorem wait_always_running_exhausts_retries (poll : Nat → PollOutcome)
    (interval : Int) (n : Nat) (_hn : 1 ≤ n)
    (hrun : ∀ j, ∃ r, poll j = .reply r 202) :
    waitUntilComplete poll interval n =
      ⟨.error "max retries exceeded while waiting for completion", n,
        List.replicate n interval⟩ :=
  waitGo_all_accepted poll interval hrun n 0

/-- Closed instance of C1 at `n = 3`. -/
theorem wait_always_running_exhausts_retries_witness :
    1 ≤ 3 ∧
    waitUntilComplete (fun _ => .reply (sampleResp "" "still running") 202) 10 3 =
      ⟨.error "max retries exceeded while waiting for completion", 3,
        List.replicate 3 10⟩ :=
  ⟨by decide,
    wait_always_running_exhausts_retries _ 10 3 (by decide)
      (fun _ => ⟨sampleResp "" "still running", rfl⟩)⟩

/-- Generalized success lemma: after `k` still-running probes starting
at index `i`, probe `i + k` succeeding terminates the loop with that
response, `k + 1` probes and `k` sleeps, provided the budget allows it. -/
theorem waitGo_accepted_then_ok (poll : Nat → PollOutcome) (interval : Int)
    (resp : QueryResponse) :
    ∀ k i fuel, k < fuel →
      (∀ j, j < k → ∃ r, poll (i + j) = .reply r 202) →
      poll (i + k) = .reply resp 200 →
      waitGo poll interval i fuel =
        ⟨.ok resp, k + 1, List.replicate k interval⟩ := by
  intro k
  induction k with
  | zero =>
    intro i fuel hf _ hk
    obtain ⟨m, rfl⟩ : ∃ m, fuel = m + 1 := ⟨fuel - 1, by omega⟩
    rw [Nat.add_zero] at hk
    simp [waitGo, hk]
  | succ k ih =>
    intro i fuel hf hrun hk
    obtain ⟨m, rfl⟩ : ∃ m, fuel = m + 1 := ⟨fuel - 1, by omega⟩
    obtain ⟨r, hr⟩ := hrun 0 (Nat.succ_pos k)
    rw [Nat.add_zero] at hr
    have hrec := ih (i + 1) m (by omega)
      (fun j hj => by
        have hh := hrun (j + 1) (by omega)
        rwa [show i + (j + 1) = i + 1 + j by omega] at hh)
      (by rwa [show i + (k + 1) = i + 1 + k by omega] at hk)
    simp [waitGo, hr, hrec, List.replicate_succ]

/-- C2: if the poll behaviour reports still-running exactly `k` times
and then success (HTTP 200), with `k < maxAttempts`, then
`WaitUntilComplete` returns that success response after exactly `k + 1`
probes with exactly `k` sleeps of the poll interval, and the result
carries the success response (hence its message). -/
theorem wait_running_then_success (poll : Nat → PollOutcome)
    (interval : Int) (k maxAttempts : Nat) (resp : QueryResponse)
    (hk : k < maxAttempts)
    (hrun : ∀ j, j < k → ∃ r, poll j = .reply r 202)
    (hsucc : poll k = .reply resp 200) :
    waitUntilComplete poll interval maxAttempts =
      ⟨.ok resp, k + 1, List.replicate k interval⟩ ∧
    (waitUntilComplete poll interval maxAttempts).result = .ok resp := by
  have h := waitGo_accepted_then_ok poll interval resp k 0 maxAttempts hk
    (fun j hj => by simpa using hrun j hj) (by simpa using hsucc)
  exact ⟨h, by rw [waitUntilComplete, h]⟩

/-- Closed instance of C2 mirroring the spec example: probes
`[RUNNING, RUNNING, COMPLETED with message done]` and `maxAttempts = 3`
give the done result after 3 probes and 2 sleeps. -/
theorem wait_running_then_success_witness :
    2 < 3 ∧
    waitUntilComplete
      (fun j => match j with
        | 0 => .reply (sampleResp "" "still running") 202
        | 1 => .reply (sampleResp "" "still running") 202
        | _ => .reply (sampleResp "090001" "done") 200) 10 3 =
      ⟨.ok (sampleResp "090001" "done"), 3, List.replicate 2 10⟩ :=
  ⟨by decide,
    (wait_running_then_success _ 10 2 3 (sampleResp "090001" "done")
      (by decide)
      (fun j hj => by
        interval_cases j <;> exact ⟨sampleResp "" "still running", rfl⟩)
      rfl).1⟩

/-- Budget decomposition: a prefix of `kk` still-running probes spends
`kk` attempts and `kk` sleeps, and the loop continues at probe `i + kk`
with the remaining budget. -/
theorem waitGo_skip_accepted (poll : Nat → PollOutcome) (interval : Int) :
    ∀ kk i fuel, kk ≤ fuel →
      (∀ j, j < kk → ∃ r, poll (i + j) = .reply r 202) →
      waitGo poll interval i fuel =
        ⟨(waitGo poll interval (i + kk) (fuel - kk)).result,
         (waitGo poll interval (i + kk) (fuel - kk)).probes + kk,
         List.replicate kk interval
           ++ (waitGo poll interval (i + kk) (fuel - kk)).sleeps⟩ := by
  intro kk
  induction kk with
  | zero => intro i fuel _ _; simp
  | succ kk ih =>
    intro i fuel hf hrun
    obtain ⟨m, rfl⟩ : ∃ m, fuel = m + 1 := ⟨fuel - 1, by omega⟩
    obtain ⟨r, hr⟩ := hrun 0 (Nat.succ_pos kk)
    rw [Nat.add_zero] at hr
    have hrec := ih (i + 1) m (by omega)
      (fun j hj => by
        have hh := hrun (j + 1) (by omega)
        rwa [show i + (j + 1) = i + 1 + j by omega] at hh)
    rw [show i + (kk + 1) = i + 1 + kk by omega,
      show m + 1 - (kk + 1) = m - kk by omega]
    simp [waitGo, hr, hrec, List.replicate_succ]
    omega

/-- With at least one attempt of budget left, the loop always issues at
least one probe. -/
theorem waitGo_probes_pos (poll : Nat → PollOutcome) (interval : Int)
    (i fuel : Nat) (h : 1 ≤ fuel) :
    1 ≤ (waitGo poll interval i fuel).probes := by
  obtain ⟨m, rfl⟩ : ∃ m, fuel = m + 1 := ⟨fuel - 1, by omega⟩
  rw [waitGo]
  cases poll i with
  | transportErr e => exact Nat.le_refl 1
  | reply r s =>
    by_cases h200 : s = 200
    · simp [h200]
    · by_cases h202 : s = 202
      · simp [h200, h202]
      · by_cases h422 : s = 422 <;> simp [h200, h202, h422]

/-- C3: still-running (202) is the only outcome of a probe that consumes
retry budget and leads to another probe.  A transport error is
propagated at once with no sleep; a 422 returns the execution-failed
error with the response's message and code at once; any other
unrecognized status returns the unexpected-status error at once — in all
three cases exactly one probe and no sleep occur.  A 202, by contrast,
is followed by a further probe whenever budget remains. -/
theorem wait_nonrunning_outcomes_terminal (poll : Nat → PollOutcome)
    (interval : Int) (n j : Nat) (hj : j < n)
    (hrun : ∀ i, i < j → ∃ r, poll i = .reply r 202) :
    (∀ e, poll j = .transportErr e →
      waitUntilComplete poll interval n =
        ⟨.error e, j + 1, List.replicate j interval⟩) ∧
    (∀ resp, poll j = .reply resp 422 →
      waitUntilComplete poll interval n =
        ⟨.error ("query execution failed: " ++ resp.message ++ " (code "
          ++ resp.code ++ ")"), j + 1, List.replicate j interval⟩) ∧
    (∀ resp status, poll j = .reply resp status →
      status ≠ 200 → status ≠ 202 → status ≠ 422 →
      waitUntilComplete poll interval n =
        ⟨.error ("unexpected status " ++ toString status ++ ": "
          ++ resp.message), j + 1, List.replicate j interval⟩) ∧
    (∀ resp, poll j = .reply resp 202 → j + 2 ≤ n →
      j + 2 ≤ (waitUntilComplete poll interval n).probes) := by
  have hskip := waitGo_skip_accepted poll interval j 0 n (Nat.le_of_lt hj)
    (fun i hi => by simpa using hrun i hi)
  rw [Nat.zero_add] at hskip
  obtain ⟨m, hm⟩ : ∃ m, n - j = m + 1 := ⟨n - j - 1, by omega⟩
  refine ⟨?_, ?_, ?_, ?_⟩
  · intro e he
    rw [waitUntilComplete, hskip, hm]
    simp [waitGo, he, Nat.add_comm]
  · intro resp hresp
    rw [waitUntilComplete, hskip, hm]
    simp [waitGo, hresp, Nat.add_comm]
  · intro resp status hresp h200 h202 h422
    rw [waitUntilComplete, hskip, hm]
    simp [waitGo, hresp, h200, h202, h422, Nat.add_comm]
  · intro resp hresp hn2
    have hm1 : 1 ≤ m := by omega
    have hpos := waitGo_probes_pos poll interval (j + 1) m hm1
    rw [waitUntilComplete, hskip, hm]
    simp only [waitGo, hresp]
    norm_num
    omega

/-- Closed instance of C3: a transport error on the first probe is
returned as-is after one probe and no sleep, and a 422 likewise
terminates at once with the execution-failed message. -/
theorem wait_nonrunning_outcomes_terminal_witness :
    0 < 1 ∧
    waitUntilComplete (fun _ => .transportErr "network error") 10 1 =
      ⟨.error "network error", 0 + 1, List.replicate 0 10⟩ ∧
    waitUntilComplete
        (fun _ => .reply (sampleResp "000904" "compile failure") 422) 10 1 =
      ⟨.error ("query execution failed: " ++ "compile failure" ++ " (code "
        ++ "000904" ++ ")"), 0 + 1, List.replicate 0 10⟩ :=
  ⟨by decide,
    (wait_nonrunning_outcomes_terminal _ 10 1 0 (by decide)
      (fun i hi => absurd hi (Nat.not_lt_zero i))).1 "network error" rfl,
    (wait_nonrunning_outcomes_terminal
      (fun _ => .reply (sampleResp "000904" "compile failure") 422) 10 1 0
      (by decide)
      (fun i hi => absurd hi (Nat.not_lt_zero i))).2.1
      (sampleResp "000904" "compile failure") rfl⟩

/-- C6: `Execute` returns a non-error result exactly when the status is
200, or the status is 202, or the body's code is "333334" (recognized
whatever the status); the result returned is the decoded body itself.
Every other non-200 status yields the API error built from the body's
message and code, and no result. -/
theorem execute_response_interpretation (status : Nat) (result : QueryResponse) :
    ((∃ r, interpretExecuteResponse status result = .ok r) ↔
      status = 200 ∨ status = 202 ∨ result.code = "333334") ∧
    (∀ r, interpretExecuteResponse status result = .ok r → r = result) ∧
    (status ≠ 200 → status ≠ 202 → result.code ≠ "333334" →
      interpretExecuteResponse status result =
        .error ("API error: " ++ result.message ++ " (code "
          ++ result.code ++ ")")) := by
  by_cases hasync : status = 202 ∨ result.code = "333334"
  · refine ⟨?_, ?_, ?_⟩
    · simp only [interpretExecuteResponse, if_pos hasync]
      constructor
      · intro _; tauto
      · intro _; exact ⟨result, rfl⟩
    · intro r hr
      simp [interpretExecuteResponse, hasync] at hr
      exact hr.symm
    · intro _ h202 h334
      rcases hasync with h | h
      · exact absurd h h202
      · exact absurd h h334
  · by_cases h200 : status = 200
    · refine ⟨?_, ?_, ?_⟩
      · simp [interpretExecuteResponse, hasync, h200]
      · intro r hr
        simp [interpretExecuteResponse, hasync, h200] at hr
        exact hr.symm
      · intro h; exact absurd h200 h
    · push_neg at hasync
      refine ⟨?_, ?_, ?_⟩
      · simp [interpretExecuteResponse, hasync.1, hasync.2, h200]
      · intro r hr
        simp [interpretExecuteResponse, hasync.1, hasync.2, h200] at hr
      · intro _ _ _
        simp [interpretExecuteResponse, hasync.1, hasync.2, h200]

/-- Closed instance of C6: a 422 whose body does not carry the
still-executing code yields the API error, and a 500 carrying code
"333334" is treated as async-in-progress. -/
theorem execute_response_interpretation_witness :
    interpretExecuteResponse 422 (sampleResp "002140" "SQL error") =
      .error ("API error: " ++ "SQL error" ++ " (code " ++ "002140" ++ ")") ∧
    (interpretExecuteResponse 500 (sampleResp "333334" "running") =
        .ok (sampleResp "333334" "running") →
      (500 = 200 ∨ 500 = 202 ∨ (sampleResp "333334" "running").code = "333334")) :=
  ⟨(execute_response_interpretation 422 (sampleResp "002140" "SQL error")).2.2
      (by decide) (by decide) (by decide),
    fun h =>
      (execute_response_interpretation 500 (sampleResp "333334" "running")).1.mp
        ⟨sampleResp "333334" "running", h⟩⟩

/-- C8: `Poll` issues a GET with no body, to `baseURL/handle` when the
partition index is 0 and to `baseURL/handle?partition=N` when it is
`N > 0`. -/
theorem poll_request_shape (baseURL handle : String) (partition : Int)
    (_hp : 0 ≤ partition) :
    pollRequest baseURL handle 0 =
      ⟨"GET", baseURL ++ "/" ++ handle, none⟩ ∧
    (0 < partition → pollRequest baseURL handle partition =
      ⟨"GET", baseURL ++ "/" ++ handle ++ "?partition="
        ++ toString partition, none⟩) ∧
    (pollRequest baseURL handle partition).method = "GET" ∧
    (pollRequest baseURL handle partition).body = none := by
  refine ⟨by simp [pollRequest], fun hpos => by simp [pollRequest, hpos], ?_, ?_⟩
  · by_cases hpos : partition > 0 <;> simp [pollRequest, hpos]
  · by_cases hpos : partition > 0 <;> simp [pollRequest, hpos]

/-- Closed instance of C8 at partition indices 0 and 2. -/
theorem poll_request_shape_witness :
    (0 : Int) ≤ 2 ∧
    pollRequest "https://acct.snowflakecomputing.com/api/v2/statements"
        "handle-1" 0 =
      ⟨"GET", "https://acct.snowflakecomputing.com/api/v2/statements"
        ++ "/" ++ "handle-1", none⟩ ∧
    pollRequest "https://acct.snowflakecomputing.com/api/v2/statements"
        "handle-1" 2 =
      ⟨"GET", "https://acct.snowflakecomputing.com/api/v2/statements"
        ++ "/" ++ "handle-1" ++ "?partition=" ++ toString (2 : Int), none⟩ :=
  ⟨by decide,
    (poll_request_shape "https://acct.snowflakecomputing.com/api/v2/statements"
      "handle-1" 2 (by decide)).1,
    (poll_request_shape "https://acct.snowflakecomputing.com/api/v2/statements"
      "handle-1" 2 (by decide)).2.1 (by decide)⟩

/-- C9: `Execute` builds a POST whose body carries the statement text, a
timeout of 60 and result-metadata format "json", whose query parameters
always include nullable=true; the requestId parameter is present exactly
when a non-empty RequestID is supplied, and in that case retry=true is
also present unless the Retry flag is explicitly false. -/
theorem execute_request_shape (baseURL statement : String) (async : Bool)
    (opts : Option RequestOptions) :
    (executeRequest baseURL statement async opts).method = "POST" ∧
    (executeRequest baseURL statement async opts).body.statement = statement ∧
    (executeRequest baseURL statement async opts).body.timeout = 60 ∧
    (executeRequest baseURL statement async opts).body.resultSetMetaData =
      some ⟨"json"⟩ ∧
    ("nullable", "true") ∈ (executeRequest baseURL statement async opts).queryParams ∧
    ((∃ v, ("requestId", v) ∈
        (executeRequest baseURL statement async opts).queryParams) ↔
      ∃ o, opts = some o ∧ o.requestID ≠ "") ∧
    (∀ o, opts = some o → o.requestID ≠ "" →
      ("requestId", o.requestID) ∈
          (executeRequest baseURL statement async opts).queryParams ∧
        ((("retry", "true") ∈
            (executeRequest baseURL statement async opts).queryParams) ↔
          o.retry ≠ some false)) := by
  refine ⟨rfl, rfl, rfl, rfl, ?_, ?_, ?_⟩
  · rcases opts with _ | o
    · simp [executeRequest, executeQueryParams]
    · by_cases hid : o.requestID = "" <;>
        rcases hretry : o.retry with _ | b
      · simp [executeRequest, executeQueryParams, hid]
      · simp [executeRequest, executeQueryParams, hid]
      · simp [executeRequest, executeQueryParams, hid, hretry]
      · cases b <;> simp [executeRequest, executeQueryParams, hid, hretry]
  · rcases opts with _ | o
    · simp [executeRequest, executeQueryParams]
    · by_cases hid : o.requestID = ""
      · simp [executeRequest, executeQueryParams, hid]
      · constructor
        · intro _; exact ⟨o, rfl, hid⟩
        · intro _
          refine ⟨o.requestID, ?_⟩
          rcases hretry : o.retry with _ | b
          · simp [executeRequest, executeQueryParams, hid, hretry]
          · cases b <;> simp [executeRequest, executeQueryParams, hid, hretry]
  · rintro o rfl hid
    constructor
    · rcases hretry : o.retry with _ | b
      · simp [executeRequest, executeQueryParams, hid, hretry]
      · cases b <;> simp [executeRequest, executeQueryParams, hid, hretry]
    · rcases hretry : o.retry with _ | b
      · simp [executeRequest, executeQueryParams, hid, hretry]
      · cases b <;> simp [executeRequest, executeQueryParams, hid, hretry]

/-- Closed instance of C9: a request with a supplied RequestID and an
unset Retry flag carries requestId and retry=true alongside
nullable=true; with Retry explicitly false the retry parameter is
absent. -/
theorem execute_request_shape_witness :
    (some { requestID := "id-1", retry := none } :
        Option RequestOptions) = some { requestID := "id-1", retry := none } ∧
    ("id-1" : String) ≠ "" ∧
    ("nullable", "true") ∈
      (executeRequest "b" "SELECT 1" false
        (some { requestID := "id-1", retry := none })).queryParams ∧
    ("requestId", "id-1") ∈
      (executeRequest "b" "SELECT 1" false
        (some { requestID := "id-1", retry := none })).queryParams ∧
    ("retry", "true") ∈
      (executeRequest "b" "SELECT 1" false
        (some { requestID := "id-1", retry := none })).queryParams ∧
    (("retry", "true") ∈
        (executeRequest "b" "SELECT 1" false
          (some { requestID := "id-1", retry := some false })).queryParams →
      False) := by
  have h1 := execute_request_shape "b" "SELECT 1" false
    (some { requestID := "id-1", retry := none })
  have h2 := execute_request_shape "b" "SELECT 1" false
    (some { requestID := "id-1", retry := some false })
  have hmem := h1.2.2.2.2.2.2 { requestID := "id-1", retry := none } rfl
    (by decide)
  have hmem2 := h2.2.2.2.2.2.2 { requestID := "id-1", retry := some false } rfl
    (by decide)
  exact ⟨rfl, by decide, h1.2.2.2.2.1, hmem.1,
    hmem.2.mpr (by decide),
    fun hr => (by decide : ¬ ((some false : Option Bool) ≠ some false))
      (hmem2.2.mp hr)⟩

end Snowapi

namespace Auth

/-- A scripted standard-library behaviour for closed examples: every
input decodes to a fixed certificate-typed PEM block (so its inner bytes
are definitely not a public key), PKCS#8 parsing yields a fixed RSA key,
and signing always succeeds with signature "sig". -/
def scriptedLib : CryptoLib :=
  { pemDecode := fun _ => some ⟨"CERTIFICATE", [], [48, 130, 1, 10]⟩
    parsePKCS8 := fun _ => .ok (.rsa ⟨3233, 17, 413⟩)
    rs256Sign := fun _ _ => .ok "sig" }

/-- A scripted behaviour on which PEM decoding always fails. -/
def nonePemLib : CryptoLib :=
  { pemDecode := fun _ => none
    parsePKCS8 := fun _ => .ok .nonRSA
    rs256Sign := fun _ _ => .ok "sig" }

/-- A sample token configuration for closed examples. -/
def sampleCfg : TokenConfig :=
  { account := "ab.cd-12"
    user := "vjain27"
    privateKey := [1]
    publicKey := [2]
    expireAfter := 120 }

/-- Reduction of `parsePrivateKey` once the PEM block is known. -/
theorem parsePrivateKey_of_some (lib : CryptoLib) (pemBytes : List Nat)
    (b : PemBlock) (hb : lib.pemDecode pemBytes = some b) :
    parsePrivateKey lib pemBytes =
      (match lib.parsePKCS8 b.bytes with
       | .error e => .error e
       | .ok (.rsa k) => .ok k
       | .ok .nonRSA => .error "not an RSA private key") := by
  unfold parsePrivateKey
  rw [hb]

/-- A private-key parse failure is returned by `GenerateJWT` as-is. -/
theorem generateJWT_of_privError (lib : CryptoLib) (now : Int)
    (cfg : TokenConfig) (e : String)
    (h : parsePrivateKey lib cfg.privateKey = .error e) :
    generateJWT lib now cfg = .error e := by
  unfold generateJWT
  rw [h]

/-- With a parsed private key and a decoded public-key block,
`GenerateJWT` reduces to the signing step over the claims built from the
block's fingerprint. -/
theorem generateJWT_reduce (lib : CryptoLib) (now : Int) (cfg : TokenConfig)
    (k : RSAPrivateKey) (b : PemBlock)
    (hk : parsePrivateKey lib cfg.privateKey = .ok k)
    (hb : lib.pemDecode cfg.publicKey = some b) :
    generateJWT lib now cfg =
      (match lib.rs256Sign k (snowflakeClaims cfg now
          ("SHA256:" ++ base64StdEncode (sha256 b.bytes))) with
       | .error e => .error ("JWT signing failed: " ++ e)
       | .ok sig => .ok ⟨snowflakeClaims cfg now
           ("SHA256:" ++ base64StdEncode (sha256 b.bytes)), sig⟩) := by
  have hfp : fingerprint lib cfg.publicKey =
      .ok ("SHA256:" ++ base64StdEncode (sha256 b.bytes)) := by
    unfold fingerprint
    rw [hb]
  unfold generateJWT
  rw [hk, hfp]

/-- C4: whenever the public-key PEM decodes and a token is produced, the
token's issuer is exactly `account.user.fingerprint` where the
fingerprint is `SHA256:` followed by the standard base64 encoding of the
SHA-256 hash of the decoded block's DER bytes, and the subject is
`account.user`. -/
theorem issuer_ends_with_fingerprint (lib : CryptoLib) (now : Int)
    (cfg : TokenConfig) (block : PemBlock) (tok : SignedJWT)
    (hpub : lib.pemDecode cfg.publicKey = some block)
    (hok : generateJWT lib now cfg = .ok tok) :
    tok.claims.issuer =
      normalizeAccount cfg.account ++ "." ++ toUpperString cfg.user ++ "."
        ++ ("SHA256:" ++ base64StdEncode (sha256 block.bytes)) ∧
    tok.claims.subject =
      normalizeAccount cfg.account ++ "." ++ toUpperString cfg.user := by
  rcases hpriv : parsePrivateKey lib cfg.privateKey with e | k
  · rw [generateJWT_of_privError lib now cfg e hpriv] at hok
    exact absurd hok (by simp)
  · rw [generateJWT_reduce lib now cfg k block hpriv hpub] at hok
    rcases hsig : lib.rs256Sign k (snowflakeClaims cfg now
        ("SHA256:" ++ base64StdEncode (sha256 block.bytes))) with e | s
    · rw [hsig] at hok
      exact absurd hok (by simp)
    · rw [hsig] at hok
      simp only [Except.ok.injEq] at hok
      subst hok
      exact ⟨rfl, rfl⟩

/-- Closed instance of C4 over the scripted library. -/
theorem issuer_ends_with_fingerprint_witness :
    scriptedLib.pemDecode sampleCfg.publicKey =
      some ⟨"CERTIFICATE", [], [48, 130, 1, 10]⟩ ∧
    generateJWT scriptedLib 0 sampleCfg =
      .ok ⟨snowflakeClaims sampleCfg 0
        ("SHA256:" ++ base64StdEncode (sha256 [48, 130, 1, 10])), "sig"⟩ ∧
    (snowflakeClaims sampleCfg 0
        ("SHA256:" ++ base64StdEncode (sha256 [48, 130, 1, 10]))).issuer =
      normalizeAccount sampleCfg.account ++ "." ++ toUpperString sampleCfg.user
        ++ "." ++ ("SHA256:" ++ base64StdEncode (sha256 [48, 130, 1, 10])) :=
  ⟨rfl, rfl,
    (issuer_ends_with_fingerprint scriptedLib 0 sampleCfg
      ⟨"CERTIFICATE", [], [48, 130, 1, 10]⟩
      ⟨snowflakeClaims sampleCfg 0
        ("SHA256:" ++ base64StdEncode (sha256 [48, 130, 1, 10])), "sig"⟩
      rfl rfl).1⟩

/-- C5: the subject of every produced token is the account uppercased
with periods replaced by hyphens, a period, then the user uppercased,
and the issuer is that same string followed by a period and the
fingerprint; in particular the account "ab.cd-12" is rendered
"AB-CD-12". -/
theorem subject_issuer_normalization (lib : CryptoLib) (now : Int)
    (cfg : TokenConfig) (tok : SignedJWT)
    (hok : generateJWT lib now cfg = .ok tok) :
    tok.claims.subject =
      normalizeAccount cfg.account ++ "." ++ toUpperString cfg.user ∧
    (∃ fp, tok.claims.issuer =
      normalizeAccount cfg.account ++ "." ++ toUpperString cfg.user
        ++ "." ++ fp) ∧
    normalizeAccount "ab.cd-12" = "AB-CD-12" := by
  rcases hpriv : parsePrivateKey lib cfg.privateKey with e | k
  · rw [generateJWT_of_privError lib now cfg e hpriv] at hok
    exact absurd hok (by simp)
  · rcases hpub : lib.pemDecode cfg.publicKey with _ | b
    · have : fingerprint lib cfg.publicKey = .error "invalid PEM for public key" := by
        unfold fingerprint
        rw [hpub]
      rw [show generateJWT lib now cfg =
          .error ("fingerprint generation failed: " ++ "invalid PEM for public key") by
        unfold generateJWT
        rw [hpriv, this]] at hok
      exact absurd hok (by simp)
    · rw [generateJWT_reduce lib now cfg k b hpriv hpub] at hok
      rcases hsig : lib.rs256Sign k (snowflakeClaims cfg now
          ("SHA256:" ++ base64StdEncode (sha256 b.bytes))) with e | s
      · rw [hsig] at hok
        exact absurd hok (by simp)
      · rw [hsig] at hok
        simp only [Except.ok.injEq] at hok
        subst hok
        exact ⟨rfl, ⟨_, rfl⟩, by decide⟩

/-- Closed instance of C5 over the scripted library: the account
"ab.cd-12" appears as "AB-CD-12" and the user "vjain27" as "VJAIN27". -/
theorem subject_issuer_normalization_witness :
    generateJWT scriptedLib 0 sampleCfg =
      .ok ⟨snowflakeClaims sampleCfg 0
        ("SHA256:" ++ base64StdEncode (sha256 [48, 130, 1, 10])), "sig"⟩ ∧
    (snowflakeClaims sampleCfg 0
        ("SHA256:" ++ base64StdEncode (sha256 [48, 130, 1, 10]))).subject =
      normalizeAccount "ab.cd-12" ++ "." ++ toUpperString "vjain27" ∧
    normalizeAccount "ab.cd-12" = "AB-CD-12" ∧
    toUpperString "vjain27" = "VJAIN27" :=
  ⟨rfl,
    (subject_issuer_normalization scriptedLib 0 sampleCfg
      ⟨snowflakeClaims sampleCfg 0
        ("SHA256:" ++ base64StdEncode (sha256 [48, 130, 1, 10])), "sig"⟩
      rfl).1,
    (subject_issuer_normalization scriptedLib 0 sampleCfg
      ⟨snowflakeClaims sampleCfg 0
        ("SHA256:" ++ base64StdEncode (sha256 [48, 130, 1, 10])), "sig"⟩
      rfl).2.2,
    by decide⟩

/-- C7: `GenerateJWT` produces a token exactly when the private key PEM
decodes, PKCS#8-parses to an RSA key, the public-key PEM decodes, and
signing succeeds; each failure mode yields its specific error: malformed
private-key PEM, a PKCS#8 parse error (propagated as-is), a non-RSA
key, malformed public-key PEM (wrapped as a fingerprint failure), and a
signing failure (wrapped). -/
theorem generate_jwt_error_conditions (lib : CryptoLib) (now : Int)
    (cfg : TokenConfig) :
    ((∃ tok, generateJWT lib now cfg = .ok tok) ↔
      ((∃ k, parsePrivateKey lib cfg.privateKey = .ok k) ∧
       (∃ b, lib.pemDecode cfg.publicKey = some b) ∧
       (∀ k b, parsePrivateKey lib cfg.privateKey = .ok k →
         lib.pemDecode cfg.publicKey = some b →
         ∃ s, lib.rs256Sign k (snowflakeClaims cfg now
           ("SHA256:" ++ base64StdEncode (sha256 b.bytes))) = .ok s))) ∧
    (lib.pemDecode cfg.privateKey = none →
      generateJWT lib now cfg = .error "invalid PEM format for private key") ∧
    (∀ b e, lib.pemDecode cfg.privateKey = some b →
      lib.parsePKCS8 b.bytes = .error e →
      generateJWT lib now cfg = .error e) ∧
    (∀ b, lib.pemDecode cfg.privateKey = some b →
      lib.parsePKCS8 b.bytes = .ok .nonRSA →
      generateJWT lib now cfg = .error "not an RSA private key") ∧
    (∀ k, parsePrivateKey lib cfg.privateKey = .ok k →
      lib.pemDecode cfg.publicKey = none →
      generateJWT lib now cfg =
        .error ("fingerprint generation failed: "
          ++ "invalid PEM for public key")) ∧
    (∀ k b e, parsePrivateKey lib cfg.privateKey = .ok k →
      lib.pemDecode cfg.publicKey = some b →
      lib.rs256Sign k (snowflakeClaims cfg now
        ("SHA256:" ++ base64StdEncode (sha256 b.bytes))) = .error e →
      generateJWT lib now cfg = .error ("JWT signing failed: " ++ e)) := by
  refine ⟨⟨?_, ?_⟩, ?_, ?_, ?_, ?_, ?_⟩
  · rintro ⟨tok, hok⟩
    rcases hpriv : parsePrivateKey lib cfg.privateKey with e | k
    · rw [generateJWT_of_privError lib now cfg e hpriv] at hok
      exact absurd hok (by simp)
    · rcases hpub : lib.pemDecode cfg.publicKey with _ | b
      · have hfp : fingerprint lib cfg.publicKey =
            .error "invalid PEM for public key" := by
          unfold fingerprint
          rw [hpub]
        rw [show generateJWT lib now cfg = .error
            ("fingerprint generation failed: " ++ "invalid PEM for public key") by
          unfold generateJWT
          rw [hpriv, hfp]] at hok
        exact absurd hok (by simp)
      · refine ⟨⟨k, rfl⟩, ⟨b, rfl⟩, ?_⟩
        rintro k' b' hk' hb'
        injection hk' with hk2
        injection hb' with hb2
        obtain rfl : k' = k := hk2.symm
        obtain rfl : b' = b := hb2.symm
        rw [generateJWT_reduce lib now cfg k' b' hpriv hpub] at hok
        rcases hsig : lib.rs256Sign k' (snowflakeClaims cfg now
            ("SHA256:" ++ base64StdEncode (sha256 b'.bytes))) with e | s
        · rw [hsig] at hok
          exact absurd hok (by simp)
        · exact ⟨s, rfl⟩
  · rintro ⟨⟨k, hk⟩, ⟨b, hb⟩, hsig⟩
    obtain ⟨s, hs⟩ := hsig k b hk hb
    rw [generateJWT_reduce lib now cfg k b hk hb, hs]
    exact ⟨_, rfl⟩
  · intro hnone
    apply generateJWT_of_privError
    unfold parsePrivateKey
    rw [hnone]
  · intro b e hb he
    apply generateJWT_of_privError
    rw [parsePrivateKey_of_some lib cfg.privateKey b hb, he]
  · intro b hb hnon
    apply generateJWT_of_privError
    rw [parsePrivateKey_of_some lib cfg.privateKey b hb, hnon]
  · intro k hk hpub
    have hfp : fingerprint lib cfg.publicKey =
        .error "invalid PEM for public key" := by
      unfold fingerprint
      rw [hpub]
    unfold generateJWT
    rw [hk, hfp]
  · intro k b e hk hb hsig
    rw [generateJWT_reduce lib now cfg k b hk hb, hsig]

/-- Closed instance of C7: PEM decode failure of the private key yields
the invalid-PEM error, and on the success-path library a token exists. -/
theorem generate_jwt_error_conditions_witness :
    nonePemLib.pemDecode sampleCfg.privateKey = none ∧
    generateJWT nonePemLib 0 sampleCfg =
      .error "invalid PEM format for private key" ∧
    generateJWT scriptedLib 0 sampleCfg =
      .ok ⟨snowflakeClaims sampleCfg 0
        ("SHA256:" ++ base64StdEncode (sha256 [48, 130, 1, 10])), "sig"⟩ :=
  ⟨rfl,
    (generate_jwt_error_conditions nonePemLib 0 sampleCfg).2.1 rfl,
    rfl⟩

/-- C10: the public-key material is never parsed as a public key: any
syntactically decoded PEM block (here a certificate-typed block whose
bytes are arbitrary) makes the fingerprint succeed on the block's raw
inner bytes, and `GenerateJWT` then produces a token whenever the
private key parses and signing succeeds. -/
theorem fingerprint_skips_pubkey_validation (lib : CryptoLib) (now : Int)
    (cfg : TokenConfig) (block : PemBlock)
    (hpub : lib.pemDecode cfg.publicKey = some block) :
    fingerprint lib cfg.publicKey =
      .ok ("SHA256:" ++ base64StdEncode (sha256 block.bytes)) ∧
    (∀ k sig, parsePrivateKey lib cfg.privateKey = .ok k →
      lib.rs256Sign k (snowflakeClaims cfg now
        ("SHA256:" ++ base64StdEncode (sha256 block.bytes))) = .ok sig →
      generateJWT lib now cfg =
        .ok ⟨snowflakeClaims cfg now
          ("SHA256:" ++ base64StdEncode (sha256 block.bytes)), sig⟩) := by
  constructor
  · unfold fingerprint
    rw [hpub]
  · intro k sig hk hsig
    rw [generateJWT_reduce lib now cfg k block hk hpub, hsig]

/-- Closed instance of C10: the decoded block is certificate-typed, its
bytes are not a public key, yet the fingerprint succeeds over those raw
bytes and a token is produced. -/
theorem fingerprint_skips_pubkey_validation_witness :
    scriptedLib.pemDecode sampleCfg.publicKey =
      some ⟨"CERTIFICATE", [], [48, 130, 1, 10]⟩ ∧
    fingerprint scriptedLib sampleCfg.publicKey =
      .ok ("SHA256:" ++ base64StdEncode (sha256 [48, 130, 1, 10])) ∧
    generateJWT scriptedLib 7 sampleCfg =
      .ok ⟨snowflakeClaims sampleCfg 7
        ("SHA256:" ++ base64StdEncode (sha256 [48, 130, 1, 10])), "sig"⟩ :=
  ⟨rfl,
    (fingerprint_skips_pubkey_validation scriptedLib 7 sampleCfg
      ⟨"CERTIFICATE", [], [48, 130, 1, 10]⟩ rfl).1,
    (fingerprint_skips_pubkey_validation scriptedLib 7 sampleCfg
      ⟨"CERTIFICATE", [], [48, 130, 1, 10]⟩ rfl).2
      ⟨3233, 17, 413⟩ "sig" rfl rfl⟩

end Auth
